import Mathlib

/-!
Verification of the Guest Record Synchronization Layer of the
Hotel-Guest-Management-System repository.

The embedding models, from the source:
- the `Guest` data model (client/src/types/Guest) and the mapping applied to
  records fetched from the remote store (GuestList.tsx `fetchGuests`,
  GuestDetail `fetchGuest`);
- the minimum visible-loading floor computed in the `finally` blocks of
  `fetchGuests`, `fetchGuest` and `handleUpdate`
  (`remaining = MIN_LOADING_MS - elapsed; setTimeout(..., remaining > 0 ? remaining : 0)`);
- the search filter and sort of GuestList.tsx `filteredGuests`;
- the fetch-one skip of GuestDetail (use `location.state.guest` when present);
- validation, payload construction and error translation of AddGuest
  `handleSubmit` and GuestDetail `handleUpdate`;
- the confirmation-guarded `handleDelete` of GuestDetail;
- the per-view in-progress flags (`loading` in AddGuest, `updating` in
  GuestDetail) and the buttons they disable.

JS string primitives (`trim`, `toLowerCase`, `includes`) are embedded as
structural functions on the character list so that they evaluate in the
kernel.  `localeCompare` is an environment-defined locale-aware comparison;
it is modelled as a fixed total comparison (code-point lexicographic), which
is the only property of it the specification relies on.
-/

namespace HotelGuests

/-- A guest record as held in local view state (client/src/types/Guest):
all seven fields are plain strings. -/
structure Guest where
  id : String
  first_name : String
  last_name : String
  email : String
  phone : String
  address : String
  date_of_birth : String
deriving DecidableEq

/-- A record as returned by the remote store: every field other than `id`
may be absent (or null / empty, which JS truthiness treats alike). -/
structure RemoteGuest where
  id : String
  first_name : Option String
  last_name : Option String
  email : Option String
  phone : Option String
  address : Option String
  date_of_birth : Option String
deriving DecidableEq

/-- JS `x || ""` applied to a possibly absent string field: an absent field
or an empty string is replaced by the empty string. -/
def orEmpty : Option String → String
  | none => ""
  | some s => if s = "" then "" else s

/-- JS `s || null`: an empty string is transmitted as an explicit absence. -/
def orNull (s : String) : Option String := if s = "" then none else some s

/-- JS `String.prototype.toLowerCase`, applied per character. -/
def toLowerStr (s : String) : String := String.mk (s.data.map Char.toLower)

/-- JS `String.prototype.trim`: drop whitespace at both ends. -/
def jsTrim (s : String) : String :=
  String.mk (((s.data.dropWhile Char.isWhitespace).reverse.dropWhile
    Char.isWhitespace).reverse)

/-- Does the first list start with the second one? -/
def startsWithList : List Char → List Char → Bool
  | _, [] => true
  | [], _ :: _ => false
  | h :: t, n :: m => h == n && startsWithList t m

/-- Substring search over character lists. -/
def includesList : List Char → List Char → Bool
  | [], needle => needle.isEmpty
  | h :: t, needle => startsWithList (h :: t) needle || includesList t needle

/-- JS `hay.includes(needle)`: substring containment. -/
def jsIncludes (hay needle : String) : Bool := includesList hay.data needle.data

/-- The mapping applied to each fetched remote record
(GuestList.tsx lines 31-39, GuestDetail lines 40-48): every non-id field is
`r.field || ""`. -/
def mapRemote (r : RemoteGuest) : Guest :=
  { id := r.id
    first_name := orEmpty r.first_name
    last_name := orEmpty r.last_name
    email := orEmpty r.email
    phone := orEmpty r.phone
    address := orEmpty r.address
    date_of_birth := orEmpty r.date_of_birth }

/-- GuestList.tsx `fetchGuests`: the fetched set as stored in view state. -/
def fetchGuestsData (rs : List RemoteGuest) : List Guest := rs.map mapRemote

/-- The minimum visible-loading duration constant (1000 ms in all three
handlers that enforce the floor). -/
def MIN_LOADING_MS : Nat := 1000

/-- The `finally` block of `fetchGuests`, `fetchGuest` and `handleUpdate`:
`remaining = MIN_LOADING_MS - elapsed`, and the indicator is hidden after
`remaining > 0 ? remaining : 0` further time units. -/
def hideTimeoutDelay (elapsed : Nat) : Nat :=
  let remaining : Int := (MIN_LOADING_MS : Int) - (elapsed : Int)
  if remaining > 0 then remaining.toNat else 0

/-- Total time the indicator is visible: it is shown at call start
(`setLoading(true)` / `setUpdating(true)`), the call takes `elapsed` units,
and the hide is scheduled `hideTimeoutDelay elapsed` units after completion. -/
def indicatorVisibleFor (elapsed : Nat) : Nat := elapsed + hideTimeoutDelay elapsed

/-- The absolute time at which the indicator scheduled at `start` is hidden. -/
def indicatorHideTime (start elapsed : Nat) : Nat := start + indicatorVisibleFor elapsed

/-- The search key `first_name last_name` built by the filter and the
name sort (template literal with a single space). -/
def fullName (g : Guest) : String := g.first_name ++ " " ++ g.last_name

/-- The filter predicate of GuestList.tsx lines 66-72. -/
def matchesSearch (searchTerm : String) (g : Guest) : Bool :=
  jsIncludes (toLowerStr (fullName g)) (toLowerStr searchTerm)
    || jsIncludes (toLowerStr g.email) (toLowerStr searchTerm)

/-- The filter stage of `filteredGuests`. -/
def filterGuests (searchTerm : String) (gs : List Guest) : List Guest :=
  gs.filter (matchesSearch searchTerm)

/-- Lexicographic comparison of character lists. -/
def cmpList : List Char → List Char → Ordering
  | [], [] => .eq
  | [], _ :: _ => .lt
  | _ :: _, [] => .gt
  | a :: as, b :: bs => if a < b then .lt else if b < a then .gt else cmpList as bs

/-- Models JS `localeCompare`: a negative / zero / positive result drawn from
an environment-defined locale-aware total comparison of strings, instantiated
here with code-point lexicographic order (the claims rely only on it being a
total comparison). -/
def localeCompare (s t : String) : Int :=
  match cmpList s.data t.data with
  | .lt => -1
  | .eq => 0
  | .gt => 1

/-- The sort dropdown of GuestList.tsx. -/
inductive SortKey
  | name
  | email
deriving DecidableEq

/-- The comparator passed to `.sort` in GuestList.tsx lines 73-81: lowercased
`first_name last_name` under `localeCompare` for the name key, lowercased
email under `localeCompare` for the email key. -/
def guestCompare (sortBy : SortKey) (a b : Guest) : Int :=
  match sortBy with
  | .name => localeCompare (toLowerStr (fullName a)) (toLowerStr (fullName b))
  | .email => localeCompare (toLowerStr a.email) (toLowerStr b.email)

/-- The sorted-before relation induced by the comparator: `a` may precede `b`
when the comparator result is not positive. -/
def guestLE (sortBy : SortKey) (a b : Guest) : Bool :=
  decide (guestCompare sortBy a b ≤ 0)

/-- The sort stage of `filteredGuests`: ES2019 `Array.prototype.sort` is a
stable sort consistent with the comparator, modelled as a stable merge sort. -/
def sortGuests (sortBy : SortKey) (gs : List Guest) : List Guest :=
  gs.mergeSort (guestLE sortBy)

/-- GuestList.tsx `filteredGuests`: filter by the search term, then sort. -/
def filteredGuests (searchTerm : String) (sortBy : SortKey) (gs : List Guest) :
    List Guest :=
  sortGuests sortBy (filterGuests searchTerm gs)

/-- Outcome of the remote `get(id)` call: a record, a 404 (`err.status === 404`),
or any other failure. -/
inductive FetchOneOutcome
  | found (r : RemoteGuest)
  | notFound
  | failed
deriving DecidableEq

/-- Observable result of GuestDetail's load effect. -/
structure DetailLoadResult where
  networkCalls : Nat
  guest : Option Guest
  error : Option String
deriving DecidableEq

/-- GuestDetail lines 13-67: when a guest was passed via navigation state the
effect returns before any fetch; otherwise a missing id is a local error, and
the remote record is fetched, mapped and stored, with a 404 and any other
failure translated into distinct messages. -/
def guestDetailLoad (initialGuest : Option Guest) (id : Option String)
    (remote : FetchOneOutcome) : DetailLoadResult :=
  match initialGuest with
  | some g => { networkCalls := 0, guest := some g, error := none }
  | none =>
    match id with
    | none => { networkCalls := 0, guest := none, error := some "No guest ID provided" }
    | some _ =>
      match remote with
      | .found r => { networkCalls := 1, guest := some (mapRemote r), error := none }
      | .notFound => { networkCalls := 1, guest := none, error := some "Guest not found" }
      | .failed =>
          { networkCalls := 1, guest := none, error := some "Failed to load guest details" }

/-- The form fields of AddGuest (all plain strings, initially empty). -/
structure GuestForm where
  first_name : String
  last_name : String
  email : String
  phone : String
  address : String
  date_of_birth : String
deriving DecidableEq

/-- The body transmitted by `pb.collection("guests").create` / `.update`. -/
structure CreatePayload where
  first_name : String
  last_name : String
  email : String
  phone : String
  address : String
  date_of_birth : Option String
deriving DecidableEq

/-- How far a submit/update run gets: a local validation error with no
network call, or the network call with its transmitted payload. -/
inductive SubmitStep
  | validationFailed (message : String)
  | network (payload : CreatePayload)
deriving DecidableEq

/-- AddGuest `handleSubmit` lines 37-57: required-field validation on the
trimmed fields, then the trimmed payload with `date_of_birth || null`. -/
def handleSubmit (d : GuestForm) : SubmitStep :=
  if jsTrim d.first_name = "" || jsTrim d.last_name = "" || jsTrim d.email = "" then
    .validationFailed "First name, last name, and email are required."
  else
    .network
      { first_name := jsTrim d.first_name
        last_name := jsTrim d.last_name
        email := jsTrim d.email
        phone := jsTrim d.phone
        address := jsTrim d.address
        date_of_birth := orNull d.date_of_birth }

/-- JS `s?.trim() || ""` on a string field. -/
def trimOrEmpty (s : String) : String := if jsTrim s = "" then "" else jsTrim s

/-- GuestDetail `handleUpdate` lines 81-103: same validation as create, then
the full-replacement payload keyed by the record id. -/
def handleUpdatePayload (g : Guest) : SubmitStep :=
  if jsTrim g.first_name = "" || jsTrim g.last_name = "" || jsTrim g.email = "" then
    .validationFailed "First name, last name, and email are required."
  else
    .network
      { first_name := jsTrim g.first_name
        last_name := jsTrim g.last_name
        email := jsTrim g.email
        phone := trimOrEmpty g.phone
        address := trimOrEmpty g.address
        date_of_birth := orNull g.date_of_birth }

/-- The response body of a rejected create (`err.response.data`): whether the
`email` field is flagged. -/
structure ResponseData where
  email : Bool
deriving DecidableEq

/-- A rejected create call: `err.response?.data` may be absent entirely. -/
structure CreateError where
  responseData : Option ResponseData
deriving DecidableEq

/-- AddGuest `handleSubmit` catch block, lines 61-78: translation of a remote
rejection into the user-facing message. -/
def createErrorMessage (e : CreateError) : String :=
  match e.responseData with
  | some d =>
      if d.email then "Email is already in use or invalid."
      else "Failed to add guest. Please check your input and try again."
  | none => "Failed to add guest. Please check your connection and try again."

/-- Outcome of the remote `delete(id)` call. -/
inductive DeleteOutcome
  | success
  | failure
deriving DecidableEq

/-- Observable effects of one `handleDelete` run. -/
structure DeleteRun where
  networkCalled : Bool
  navigatedToList : Bool
  showLoadingSignal : Bool
  errorSet : Option String
  guestChanged : Bool
deriving DecidableEq

/-- GuestDetail `handleDelete` lines 123-140: return early when no guest is
loaded or the confirmation dialog is declined; otherwise issue the remote
delete, navigating to the list (with the show-loading signal) on success and
surfacing an error, without navigating, on failure.  `setGuest` is never
called, so the local record is untouched in every branch. -/
def handleDelete (guest : Option Guest) (confirmed : Bool)
    (outcome : DeleteOutcome) : DeleteRun :=
  match guest with
  | none =>
      { networkCalled := false, navigatedToList := false, showLoadingSignal := false
        errorSet := none, guestChanged := false }
  | some _ =>
    if !confirmed then
      { networkCalled := false, navigatedToList := false, showLoadingSignal := false
        errorSet := none, guestChanged := false }
    else
      match outcome with
      | .success =>
          { networkCalled := true, navigatedToList := true, showLoadingSignal := true
            errorSet := none, guestChanged := false }
      | .failure =>
          { networkCalled := true, navigatedToList := false, showLoadingSignal := false
            errorSet := some "Failed to delete guest. Please try again."
            guestChanged := false }

/-- The view state of GuestDetail relevant to re-submission. -/
structure DetailViewState where
  guest : Option Guest
  updating : Bool
  error : Option String
deriving DecidableEq

/-- The view state at the moment `handleUpdate` issues its network call
(post-validation): `setUpdating(true); setError(null)` have run. -/
def updateStateAtNetworkCall (s : DetailViewState) : DetailViewState :=
  { s with updating := true, error := none }

/-- The view state at the moment `handleDelete` issues its network call
(post-confirmation): no state write precedes the call. -/
def deleteStateAtNetworkCall (s : DetailViewState) : DetailViewState := s

/-- The Update, Delete and Back buttons of GuestDetail carry
`disabled={updating}`. -/
def detailActionsDisabled (s : DetailViewState) : Bool := s.updating

/-- The view state of AddGuest relevant to re-submission. -/
structure AddGuestViewState where
  loading : Bool
  error : Option String
deriving DecidableEq

/-- The view state at the moment `handleSubmit` issues its network call:
`setLoading(true); setError(null)` run at the top of the handler. -/
def submitStateAtNetworkCall (s : AddGuestViewState) : AddGuestViewState :=
  { s with loading := true, error := none }

/-- The AddGuest submit button carries `disabled={loading}`. -/
def addGuestSubmitDisabled (s : AddGuestViewState) : Bool := s.loading

/-- The string key compared by the sort comparator for a given sort key. -/
def sortKeyStr (k : SortKey) (g : Guest) : String :=
  match k with
  | .name => toLowerStr (fullName g)
  | .email => toLowerStr g.email

/-- A sample guest used by concrete witnesses. -/
def gJane : Guest :=
  { id := "r1", first_name := "Jane", last_name := "Doe", email := "jane@x.com"
    phone := "", address := "", date_of_birth := "" }

/-- A second sample guest used by concrete witnesses. -/
def gJohn : Guest :=
  { id := "r2", first_name := "John", last_name := "Smith", email := "john@x.com"
    phone := "", address := "", date_of_birth := "" }

/-- A sample form whose first name is whitespace-only. -/
def formBlankFirst : GuestForm :=
  { first_name := " ", last_name := "Doe", email := "jane@x.com"
    phone := "", address := "", date_of_birth := "" }

/-- A sample form with untrimmed fields and an empty date of birth. -/
def formJane : GuestForm :=
  { first_name := " Jane ", last_name := "Doe", email := "jane@x.com"
    phone := " 123 ", address := "", date_of_birth := "" }

/-- The payload `handleSubmit` transmits for `formJane`. -/
def pJane : CreatePayload :=
  { first_name := "Jane", last_name := "Doe", email := "jane@x.com"
    phone := "123", address := "", date_of_birth := none }

/-- A sample remote record with every optional field absent. -/
def rAbsent : RemoteGuest :=
  { id := "r3", first_name := none, last_name := none, email := none
    phone := none, address := none, date_of_birth := none }

/-! Helper lemmas -/

/-- JS `x || ""` coincides with defaulting an absent field to the empty string. -/
theorem orEmpty_eq_getD (x : Option String) : orEmpty x = x.getD "" := by
  cases x with
  | none => rfl
  | some s =>
      by_cases h : s = ""
      · simp [orEmpty, h]
      · simp [orEmpty, h]

/-- JS `s?.trim() || ""` on a string is just the trimmed string. -/
theorem trimOrEmpty_eq (s : String) : trimOrEmpty s = jsTrim s := by
  unfold trimOrEmpty
  by_cases h : jsTrim s = ""
  · simp [h]
  · simp [h]

/-- Characterization of the prefix test. -/
theorem startsWithList_iff : ∀ hay needle : List Char,
    startsWithList hay needle = true ↔ ∃ q, hay = needle ++ q
  | hay, [] => by simp [startsWithList]
  | [], _ :: _ => by simp [startsWithList]
  | h :: t, n :: m => by
      simp only [startsWithList, Bool.and_eq_true, beq_iff_eq]
      rw [startsWithList_iff t m]
      constructor
      · rintro ⟨rfl, q, rfl⟩
        exact ⟨q, rfl⟩
      · rintro ⟨q, hq⟩
        injection hq with h1 h2
        exact ⟨h1, q, h2⟩

/-- Characterization of the substring test. -/
theorem includesList_iff : ∀ hay needle : List Char,
    includesList hay needle = true ↔ ∃ p q, hay = p ++ needle ++ q
  | [], needle => by
      constructor
      · intro h
        have hn : needle = [] := by
          simpa [includesList, List.isEmpty_iff] using h
        exact ⟨[], [], by simp [hn]⟩
      · rintro ⟨p, q, hpq⟩
        have hnil := hpq.symm
        simp only [List.append_eq_nil] at hnil
        simp [includesList, List.isEmpty_iff, hnil.1.2]
  | h :: t, needle => by
      simp only [includesList, Bool.or_eq_true]
      rw [startsWithList_iff, includesList_iff t needle]
      constructor
      · rintro (⟨q, hq⟩ | ⟨p, q, hpq⟩)
        · exact ⟨[], q, by simpa using hq⟩
        · exact ⟨h :: p, q, by simp [hpq]⟩
      · rintro ⟨p, q, hpq⟩
        cases p with
        | nil => exact Or.inl ⟨q, by simpa using hpq⟩
        | cons x xs =>
            injection hpq with h1 h2
            exact Or.inr ⟨xs, q, h2⟩

/-- The empty needle is a substring of everything. -/
theorem includesList_nil_needle (hay : List Char) : includesList hay [] = true := by
  cases hay with
  | nil => rfl
  | cons h t => simp [includesList, startsWithList]

/-- Swapping the arguments of the comparison swaps the result. -/
theorem cmpList_swap : ∀ x y : List Char, cmpList y x = (cmpList x y).swap
  | [], [] => rfl
  | [], _ :: _ => rfl
  | _ :: _, [] => rfl
  | a :: as, b :: bs => by
      simp only [cmpList]
      rcases lt_trichotomy a b with h | h | h
      · simp [h, lt_asymm h, Ordering.swap]
      · subst h
        simp only [lt_irrefl, if_false]
        exact cmpList_swap as bs
      · simp [h, lt_asymm h, Ordering.swap]

/-- Transitivity of the not-greater relation on character lists. -/
theorem cmpList_trans : ∀ x y z : List Char,
    cmpList x y ≠ Ordering.gt → cmpList y z ≠ Ordering.gt →
      cmpList x z ≠ Ordering.gt
  | [], _, [] => fun _ _ => by simp [cmpList]
  | [], _, _ :: _ => fun _ _ => by simp [cmpList]
  | _ :: _, [], _ => fun h _ => absurd rfl h
  | _ :: _, _ :: _, [] => fun _ h => absurd rfl h
  | a :: as, b :: bs, c :: cs => fun hxy hyz => by
      simp only [cmpList] at hxy hyz ⊢
      rcases lt_trichotomy a b with hab | hab | hab
      · rcases lt_trichotomy b c with hbc | hbc | hbc
        · simp [lt_trans hab hbc]
        · subst hbc
          simp [hab]
        · simp [hbc, lt_asymm hbc] at hyz
      · subst hab
        rcases lt_trichotomy a c with hac | hac | hac
        · simp [hac]
        · subst hac
          simp only [lt_irrefl, if_false] at hxy hyz ⊢
          exact cmpList_trans as bs cs hxy hyz
        · simp [hac, lt_asymm hac] at hyz
      · simp [hab, lt_asymm hab] at hxy

/-- Totality of the not-greater relation on character lists. -/
theorem cmpList_total (x y : List Char) :
    cmpList x y ≠ Ordering.gt ∨ cmpList y x ≠ Ordering.gt := by
  by_cases h : cmpList x y = Ordering.gt
  · right
    rw [cmpList_swap x y, h]
    decide
  · left
    exact h

/-- A non-positive comparator result is exactly a not-greater comparison. -/
theorem localeCompare_le_iff (s t : String) :
    localeCompare s t ≤ 0 ↔ cmpList s.data t.data ≠ Ordering.gt := by
  unfold localeCompare
  cases cmpList s.data t.data <;> decide

/-- The comparator compares the sort keys. -/
theorem guestCompare_eq (k : SortKey) (a b : Guest) :
    guestCompare k a b = localeCompare (sortKeyStr k a) (sortKeyStr k b) := by
  cases k <;> rfl

/-- The sorted-before relation, characterized on the sort keys. -/
theorem guestLE_iff (k : SortKey) (a b : Guest) :
    guestLE k a b = true ↔
      cmpList (sortKeyStr k a).data (sortKeyStr k b).data ≠ Ordering.gt := by
  unfold guestLE
  rw [decide_eq_true_eq, guestCompare_eq, localeCompare_le_iff]

/-! Claim theorems -/

/-- C1: for every fetchAll, fetchOne or update call that is actually issued,
the indicator shown at call start stays visible for exactly
`max (call duration) MIN_LOADING_MS` time units: a call faster than the floor
keeps it visible until `MIN_LOADING_MS` units after the start, and a call at
least as long as the floor hides it on completion with no added delay. -/
theorem min_loading_floor_contract (elapsed : Nat) :
    indicatorVisibleFor elapsed = max elapsed MIN_LOADING_MS
    ∧ (elapsed < MIN_LOADING_MS → indicatorVisibleFor elapsed = MIN_LOADING_MS)
    ∧ (MIN_LOADING_MS ≤ elapsed → indicatorVisibleFor elapsed = elapsed)
    ∧ (∀ start : Nat,
        indicatorHideTime start elapsed = start + max elapsed MIN_LOADING_MS) := by
  have key : indicatorVisibleFor elapsed = max elapsed MIN_LOADING_MS := by
    simp only [indicatorVisibleFor, hideTimeoutDelay, MIN_LOADING_MS]
    split <;> omega
  refine ⟨key, fun h => ?_, fun h => ?_, fun start => ?_⟩
  · omega
  · omega
  · rw [indicatorHideTime, key]

/-- Witness for C1: a 10-unit call keeps the indicator visible for the full
1000-unit floor, a 2000-unit call for exactly its own duration. -/
theorem min_loading_floor_contract_witness :
    indicatorVisibleFor 10 = MIN_LOADING_MS ∧ indicatorVisibleFor 2000 = 2000 :=
  ⟨(min_loading_floor_contract 10).2.1 (by decide),
   (min_loading_floor_contract 2000).2.2.1 (by decide)⟩

/-- C2: the filter keeps exactly the records whose lowercased
`first_name last_name` or lowercased email contains the lowercased search
term as a substring, and the empty search term keeps the whole fetched set. -/
theorem search_filter_contract (searchTerm : String) (gs : List Guest) :
    (∀ g : Guest, g ∈ filterGuests searchTerm gs ↔
        g ∈ gs ∧
          ((∃ p q, (toLowerStr (fullName g)).data
              = p ++ (toLowerStr searchTerm).data ++ q)
            ∨ ∃ p q, (toLowerStr g.email).data
                = p ++ (toLowerStr searchTerm).data ++ q))
    ∧ filterGuests "" gs = gs := by
  constructor
  · intro g
    rw [filterGuests, List.mem_filter]
    simp only [matchesSearch, jsIncludes, Bool.or_eq_true, includesList_iff]
  · rw [filterGuests]
    apply List.filter_eq_self.mpr
    intro g _
    rw [matchesSearch, jsIncludes, jsIncludes]
    have hdata : (toLowerStr "").data = [] := rfl
    rw [hdata, includesList_nil_needle, includesList_nil_needle]
    rfl

/-- Witness for C2: with the empty search term the filter returns the
fetched set unchanged, and a concrete term matches by name. -/
theorem search_filter_contract_witness :
    filterGuests "" [gJane, gJohn] = [gJane, gJohn]
    ∧ (gJane ∈ filterGuests "jane d" [gJane, gJohn] ↔
        gJane ∈ [gJane, gJohn] ∧
          ((∃ p q, (toLowerStr (fullName gJane)).data
              = p ++ (toLowerStr "jane d").data ++ q)
            ∨ ∃ p q, (toLowerStr gJane.email).data
                = p ++ (toLowerStr "jane d").data ++ q)) :=
  ⟨(search_filter_contract "" [gJane, gJohn]).2,
   (search_filter_contract "jane d" [gJane, gJohn]).1 gJane⟩

/-- C3: when the detail view already holds a record passed forward from the
list view, the load effect issues zero network calls and uses the held record
unchanged; the remote get is issued only when no record is held. -/
theorem fetchOne_skips_when_held :
    (∀ (g : Guest) (id : Option String) (remote : FetchOneOutcome),
        guestDetailLoad (some g) id remote
          = { networkCalls := 0, guest := some g, error := none })
    ∧ (∀ (initialGuest : Option Guest) (id : Option String)
          (remote : FetchOneOutcome),
        (guestDetailLoad initialGuest id remote).networkCalls ≠ 0 →
          initialGuest = none) := by
  constructor
  · intro g id remote
    rfl
  · intro initialGuest id remote h
    cases initialGuest with
    | none => rfl
    | some g => exact absurd rfl h

/-- Witness for C3: a held record is used unchanged with zero network calls,
and a run that did reach the network started with no held record. -/
theorem fetchOne_skips_when_held_witness :
    guestDetailLoad (some gJane) (some "r1") FetchOneOutcome.failed
        = { networkCalls := 0, guest := some gJane, error := none }
    ∧ (none : Option Guest) = none :=
  ⟨fetchOne_skips_when_held.1 gJane (some "r1") FetchOneOutcome.failed,
   fetchOne_skips_when_held.2 none (some "r1") FetchOneOutcome.failed (by decide)⟩

/-- C4: a draft (create) or edited copy (update) whose first name, last name
or email is empty after trimming yields the local validation error and never
reaches the network constructor; the network call is reached exactly when all
three required fields are non-empty after trimming. -/
theorem validation_precedes_network (d : GuestForm) (g : Guest) :
    ((jsTrim d.first_name = "" ∨ jsTrim d.last_name = "" ∨ jsTrim d.email = "") →
        handleSubmit d
          = .validationFailed "First name, last name, and email are required.")
    ∧ ((jsTrim d.first_name ≠ "" ∧ jsTrim d.last_name ≠ "" ∧ jsTrim d.email ≠ "") →
        ∃ p, handleSubmit d = .network p)
    ∧ ((jsTrim g.first_name = "" ∨ jsTrim g.last_name = "" ∨ jsTrim g.email = "") →
        handleUpdatePayload g
          = .validationFailed "First name, last name, and email are required.")
    ∧ ((jsTrim g.first_name ≠ "" ∧ jsTrim g.last_name ≠ "" ∧ jsTrim g.email ≠ "") →
        ∃ p, handleUpdatePayload g = .network p) := by
  refine ⟨fun h => ?_, fun h => ?_, fun h => ?_, fun h => ?_⟩
  · unfold handleSubmit
    split
    · rfl
    · next hc =>
        simp only [Bool.or_eq_true, decide_eq_true_eq, or_assoc] at hc
        exact absurd h hc
  · unfold handleSubmit
    split
    · next hc =>
        simp only [Bool.or_eq_true, decide_eq_true_eq, or_assoc] at hc
        rcases hc with hc | hc | hc
        · exact absurd hc h.1
        · exact absurd hc h.2.1
        · exact absurd hc h.2.2
    · exact ⟨_, rfl⟩
  · unfold handleUpdatePayload
    split
    · rfl
    · next hc =>
        simp only [Bool.or_eq_true, decide_eq_true_eq, or_assoc] at hc
        exact absurd h hc
  · unfold handleUpdatePayload
    split
    · next hc =>
        simp only [Bool.or_eq_true, decide_eq_true_eq, or_assoc] at hc
        rcases hc with hc | hc | hc
        · exact absurd hc h.1
        · exact absurd hc h.2.1
        · exact absurd hc h.2.2
    · exact ⟨_, rfl⟩

/-- Witness for C4: a whitespace-only first name yields the validation error
with no network step, and a fully valid record reaches the network. -/
theorem validation_precedes_network_witness :
    handleSubmit formBlankFirst
        = SubmitStep.validationFailed
            "First name, last name, and email are required."
    ∧ ∃ p, handleUpdatePayload gJane = SubmitStep.network p :=
  ⟨(validation_precedes_network formBlankFirst gJane).1 (Or.inl (by decide)),
   (validation_precedes_network formBlankFirst gJane).2.2.2
     ⟨by decide, by decide, by decide⟩⟩

/-- Counterexample for C5: two remote create rejections, neither due to a
flagged email field, produce two different user-facing messages, so there is
no single generic CreateFailed message as the claim states. -/
theorem createFailed_message_not_unique :
    createErrorMessage { responseData := some { email := false } }
        ≠ createErrorMessage { responseData := none }
    ∧ createErrorMessage { responseData := some { email := false } }
        ≠ "Email is already in use or invalid."
    ∧ createErrorMessage { responseData := none }
        ≠ "Email is already in use or invalid." := by
  refine ⟨?_, ?_, ?_⟩ <;> decide

/-- C5 (amended): fetchOne maps a not-found response to the NotFound message
and every other failure to the FetchFailed message; create maps a rejection
whose response body flags the email field to the DuplicateEmail message, and
every other remote rejection to one of two fixed generic CreateFailed
messages, distinguished by whether the server returned a response body —
never a raw transport error. -/
theorem error_message_taxonomy :
    (∀ i : String,
        (guestDetailLoad none (some i) FetchOneOutcome.notFound).error
          = some "Guest not found")
    ∧ (∀ i : String,
        (guestDetailLoad none (some i) FetchOneOutcome.failed).error
          = some "Failed to load guest details")
    ∧ (∀ e : CreateError, e.responseData.map ResponseData.email = some true →
        createErrorMessage e = "Email is already in use or invalid.")
    ∧ (∀ e : CreateError, e.responseData.map ResponseData.email ≠ some true →
        createErrorMessage e
            = "Failed to add guest. Please check your input and try again."
          ∨ createErrorMessage e
            = "Failed to add guest. Please check your connection and try again.") := by
  refine ⟨fun i => rfl, fun i => rfl, fun e h => ?_, fun e h => ?_⟩
  · rcases e with ⟨_ | ⟨flag⟩⟩
    · simp at h
    · rcases flag with _ | _
      · simp [Option.map] at h
      · rfl
  · rcases e with ⟨_ | ⟨flag⟩⟩
    · exact Or.inr rfl
    · rcases flag with _ | _
      · exact Or.inl rfl
      · exact absurd rfl h

/-- Witness for C5: the concrete messages produced for a 404, a flagged
email rejection, and a rejection carrying no response body. -/
theorem error_message_taxonomy_witness :
    (guestDetailLoad none (some "r9") FetchOneOutcome.notFound).error
        = some "Guest not found"
    ∧ createErrorMessage { responseData := some { email := true } }
        = "Email is already in use or invalid."
    ∧ (createErrorMessage { responseData := none }
          = "Failed to add guest. Please check your input and try again."
        ∨ createErrorMessage { responseData := none }
          = "Failed to add guest. Please check your connection and try again.") :=
  ⟨error_message_taxonomy.1 "r9",
   error_message_taxonomy.2.2.1 { responseData := some { email := true } } (by decide),
   error_message_taxonomy.2.2.2 { responseData := none } (by decide)⟩

/-- C6: the remote delete is issued only after the confirmation dialog is
accepted; a declined confirmation performs no network call and leaves record
and view state unchanged; a failed remote delete surfaces the DeleteFailed
message, leaves the record untouched and does not navigate away. -/
theorem delete_confirmation_contract :
    (∀ (g : Option Guest) (c : Bool) (o : DeleteOutcome),
        (handleDelete g c o).networkCalled = true → c = true)
    ∧ (∀ (g : Option Guest) (o : DeleteOutcome),
        handleDelete g false o
          = { networkCalled := false, navigatedToList := false
              showLoadingSignal := false, errorSet := none, guestChanged := false })
    ∧ (∀ g : Guest,
        handleDelete (some g) true DeleteOutcome.failure
          = { networkCalled := true, navigatedToList := false
              showLoadingSignal := false
              errorSet := some "Failed to delete guest. Please try again."
              guestChanged := false }) := by
  refine ⟨fun g c o h => ?_, fun g o => ?_, fun g => rfl⟩
  · cases g with
    | none => simp [handleDelete] at h
    | some g =>
        cases c with
        | false => simp [handleDelete] at h
        | true => rfl
  · cases g <;> rfl

/-- Witness for C6: a confirmed delete did reach the network, and a declined
confirmation changes nothing. -/
theorem delete_confirmation_contract_witness :
    true = true
    ∧ handleDelete (some gJane) false DeleteOutcome.success
        = { networkCalled := false, navigatedToList := false
            showLoadingSignal := false, errorSet := none, guestChanged := false } :=
  ⟨delete_confirmation_contract.1 (some gJane) true DeleteOutcome.success (by decide),
   delete_confirmation_contract.2.1 (some gJane) DeleteOutcome.success⟩

/-- Counterexample for C7: at the moment `handleDelete` issues its network
call from a freshly loaded detail view, the view's buttons are not disabled —
delete sets no in-progress flag, so re-submission is not prevented while the
delete call is outstanding. -/
theorem delete_lacks_in_progress_flag :
    detailActionsDisabled (deleteStateAtNetworkCall
      { guest := some gJane, updating := false, error := none }) = false := rfl

/-- C7 (amended): create and update each set their view's explicit
in-progress flag before the network call, and that flag disables the view's
re-submission controls while the call is outstanding; `handleDelete` performs
no state write before its network call, so no in-progress flag is set for
delete and the buttons stay enabled during an outstanding delete. -/
theorem in_progress_flag_contract :
    (∀ s : AddGuestViewState,
        addGuestSubmitDisabled (submitStateAtNetworkCall s) = true)
    ∧ (∀ s : DetailViewState,
        detailActionsDisabled (updateStateAtNetworkCall s) = true)
    ∧ (∀ s : DetailViewState, deleteStateAtNetworkCall s = s) :=
  ⟨fun _ => rfl, fun _ => rfl, fun _ => rfl⟩

/-- C8: every payload that reaches the network carries the trimmed values of
the five string fields, the three required fields are non-empty, and an empty
date of birth is transmitted as an explicit absence. -/
theorem transmitted_fields_trimmed (d : GuestForm) (g : Guest)
    (p q : CreatePayload) :
    (handleSubmit d = .network p →
        p.first_name = jsTrim d.first_name ∧ p.last_name = jsTrim d.last_name
        ∧ p.email = jsTrim d.email ∧ p.phone = jsTrim d.phone
        ∧ p.address = jsTrim d.address
        ∧ p.first_name ≠ "" ∧ p.last_name ≠ "" ∧ p.email ≠ ""
        ∧ (d.date_of_birth = "" → p.date_of_birth = none))
    ∧ (handleUpdatePayload g = .network q →
        q.first_name = jsTrim g.first_name ∧ q.last_name = jsTrim g.last_name
        ∧ q.email = jsTrim g.email ∧ q.phone = jsTrim g.phone
        ∧ q.address = jsTrim g.address
        ∧ q.first_name ≠ "" ∧ q.last_name ≠ "" ∧ q.email ≠ ""
        ∧ (g.date_of_birth = "" → q.date_of_birth = none)) := by
  constructor
  · unfold handleSubmit
    split
    · intro h
      exact absurd h (by simp)
    · next hc =>
        intro h
        simp only [Bool.or_eq_true, decide_eq_true_eq, or_assoc] at hc
        push_neg at hc
        injection h with h
        subst h
        refine ⟨rfl, rfl, rfl, rfl, rfl, hc.1, hc.2.1, hc.2.2, fun hd => ?_⟩
        simp [orNull, hd]
  · unfold handleUpdatePayload
    split
    · intro h
      exact absurd h (by simp)
    · next hc =>
        intro h
        simp only [Bool.or_eq_true, decide_eq_true_eq, or_assoc] at hc
        push_neg at hc
        injection h with h
        subst h
        refine ⟨rfl, rfl, rfl, trimOrEmpty_eq g.phone, trimOrEmpty_eq g.address,
          hc.1, hc.2.1, hc.2.2, fun hd => ?_⟩
        simp [orNull, hd]

/-- Witness for C8: the payload transmitted for a concrete form with padded
fields and an empty date of birth. -/
theorem transmitted_fields_trimmed_witness :
    pJane.first_name = jsTrim formJane.first_name
    ∧ pJane.last_name = jsTrim formJane.last_name
    ∧ pJane.email = jsTrim formJane.email
    ∧ pJane.phone = jsTrim formJane.phone
    ∧ pJane.address = jsTrim formJane.address
    ∧ pJane.first_name ≠ "" ∧ pJane.last_name ≠ "" ∧ pJane.email ≠ ""
    ∧ (formJane.date_of_birth = "" → pJane.date_of_birth = none) :=
  (transmitted_fields_trimmed formJane gJane pJane pJane).1 (by decide)

/-- C9: sorting by the chosen key orders the records ascending under the
locale-aware comparison of the key (`first_name last_name` for name, email
for email, both lowercased as in the source), the sort is a stable
permutation, and it is idempotent. -/
theorem sort_contract (k : SortKey) (gs : List Guest) :
    (sortGuests k gs).Pairwise
        (fun a b => localeCompare (sortKeyStr k a) (sortKeyStr k b) ≤ 0)
    ∧ (∀ a b : Guest, guestLE k a b = true → [a, b].Sublist gs →
        [a, b].Sublist (sortGuests k gs))
    ∧ sortGuests k (sortGuests k gs) = sortGuests k gs
    ∧ (sortGuests k gs).Perm gs := by
  have htrans : ∀ a b c : Guest,
      guestLE k a b = true → guestLE k b c = true → guestLE k a c = true := by
    intro a b c hab hbc
    rw [guestLE_iff] at hab hbc ⊢
    exact cmpList_trans _ _ _ hab hbc
  have htotal : ∀ a b : Guest, (guestLE k a b || guestLE k b a) = true := by
    intro a b
    rw [Bool.or_eq_true, guestLE_iff, guestLE_iff]
    exact cmpList_total _ _
  refine ⟨?_, fun a b hab hsub => ?_, ?_, ?_⟩
  · have h := List.sorted_mergeSort htrans htotal gs
    unfold sortGuests
    refine h.imp ?_
    intro a b hab
    unfold guestLE at hab
    rw [decide_eq_true_eq, guestCompare_eq] at hab
    exact hab
  · exact List.pair_sublist_mergeSort htrans htotal hab hsub
  · exact List.mergeSort_of_sorted (List.sorted_mergeSort htrans htotal gs)
  · exact List.mergeSort_perm gs (guestLE k)

/-- Witness for C9: two concrete records in comparator order stay in their
original relative order through the name sort. -/
theorem sort_contract_witness :
    guestLE SortKey.name gJane gJohn = true
    ∧ [gJane, gJohn].Sublist (sortGuests SortKey.name [gJane, gJohn]) :=
  ⟨by decide,
   (sort_contract SortKey.name [gJane, gJohn]).2.1 gJane gJohn (by decide)
     (List.Sublist.refl _)⟩

/-- C10: mapping a fetched remote record defaults every missing or absent
field — including an absent date of birth — to the empty string, so every
locally held record has all seven fields present as strings. -/
theorem fetched_fields_defaulted (r : RemoteGuest) :
    mapRemote r
      = { id := r.id, first_name := r.first_name.getD ""
          last_name := r.last_name.getD "", email := r.email.getD ""
          phone := r.phone.getD "", address := r.address.getD ""
          date_of_birth := r.date_of_birth.getD "" }
    ∧ (r.date_of_birth = none → (mapRemote r).date_of_birth = "")
    ∧ (∀ rs : List RemoteGuest, ∀ g ∈ fetchGuestsData rs,
        ∃ r2 ∈ rs, g = mapRemote r2) := by
  refine ⟨?_, fun h => ?_, fun rs g hg => ?_⟩
  · unfold mapRemote
    rw [orEmpty_eq_getD, orEmpty_eq_getD, orEmpty_eq_getD, orEmpty_eq_getD,
      orEmpty_eq_getD, orEmpty_eq_getD]
  · simp [mapRemote, h, orEmpty]
  · rcases List.mem_map.mp hg with ⟨r2, hr2, hmap⟩
    exact ⟨r2, hr2, hmap.symm⟩

/-- Witness for C10: a remote record with every optional field absent maps to
a record whose six optional fields are all the empty string. -/
theorem fetched_fields_defaulted_witness :
    mapRemote rAbsent
      = { id := rAbsent.id, first_name := rAbsent.first_name.getD ""
          last_name := rAbsent.last_name.getD "", email := rAbsent.email.getD ""
          phone := rAbsent.phone.getD "", address := rAbsent.address.getD ""
          date_of_birth := rAbsent.date_of_birth.getD "" }
    ∧ (mapRemote rAbsent).date_of_birth = "" :=
  ⟨(fetched_fields_defaulted rAbsent).1,
   (fetched_fields_defaulted rAbsent).2.1 rfl⟩

end HotelGuests
